import Mathlib

/-!
Verification of the saku-peq frequency-response engine.

Shallow embedding of `src/core/frequencyResponse.js` (biquad EQ frequency
response calculation) over the real numbers.

Modelling conventions:
* JavaScript numbers are modelled as real numbers `ℝ`.  A band field that may
  be absent (`undefined`) or non-finite (`NaN`/`±Infinity`) is modelled as
  `Option ℝ`: `none` stands for "missing or non-finite", which the source
  always detects with `Number.isFinite` and maps to the same fallback, so the
  two cases are behaviourally identical at every use site in this file.
* `Number.isFinite x` on a plain real value is identically true in this model;
  guards of the form `!Number.isFinite(x)` on already-resolved real values
  therefore disappear.
* Thrown JavaScript errors (`throw new Error`, `RangeError` from a negative
  typed-array length) are modelled with `Except String`.
* `Math.pow`, `Math.log10`, `Math.sin`, `Math.cos`, `Math.sqrt` are modelled by
  `Real.rpow`, `Real.logb 10`, `Real.sin`, `Real.cos`, `Real.sqrt`.
-/

namespace SakuPeq

/-- `DEFAULT_SAMPLE_RATE = 48000` from `frequencyResponse.js`. -/
def DEFAULT_SAMPLE_RATE : ℝ := 48000

/-- `MIN_GAIN_DB = -48` from `frequencyResponse.js`. -/
def MIN_GAIN_DB : ℝ := -48

/-- `MAX_GAIN_DB = 48` from `frequencyResponse.js`. -/
def MAX_GAIN_DB : ℝ := 48

/-- `GAIN_EPSILON = 1e-3` from `frequencyResponse.js`. -/
def GAIN_EPSILON : ℝ := 1e-3

/-- `MIN_Q = 1e-6` from `frequencyResponse.js`. -/
def MIN_Q : ℝ := 1e-6

/-- `MIN_SLOPE = 1e-6` from `frequencyResponse.js`. -/
def MIN_SLOPE : ℝ := 1e-6

/-- JavaScript `Number.EPSILON = 2^-52`. -/
noncomputable def NUMBER_EPSILON : ℝ := 1 / 2 ^ 52

/-- Normalized biquad coefficients (`a0 = 1`), the record built by
`normalizeCoefficients`. -/
structure Coefficients where
  b0 : ℝ
  b1 : ℝ
  b2 : ℝ
  a1 : ℝ
  a2 : ℝ

/-- `normalizeCoefficients(b0,b1,b2,a0,a1,a2)` from `frequencyResponse.js`:
returns `null` (here `none`) when `a0` is non-finite (vacuous over `ℝ`) or
`|a0| < Number.EPSILON`, otherwise divides everything by `a0`. -/
noncomputable def normalizeCoefficients (b0 b1 b2 a0 a1 a2 : ℝ) : Option Coefficients :=
  if |a0| < NUMBER_EPSILON then none
  else
    let invA0 := 1 / a0
    some ⟨b0 * invA0, b1 * invA0, b2 * invA0, a1 * invA0, a2 * invA0⟩

/-- `biquadMagnitudeDb(coefficients, w)` from `frequencyResponse.js`:
evaluates the normalized transfer function on the unit circle at angular
frequency `w` and converts the magnitude to dB.  The `Number.isFinite`
guards on `numMagSquared`, `denMagSquared` and `magnitude` are vacuous over
`ℝ`; the `denMagSquared === 0` and `magnitude <= 0` guards are kept. -/
noncomputable def biquadMagnitudeDb (coefficients : Option Coefficients) (w : ℝ) : ℝ :=
  match coefficients with
  | none => 0
  | some c =>
    let cosw := Real.cos w
    let sinw := Real.sin w
    let cos2w := Real.cos (2 * w)
    let sin2w := Real.sin (2 * w)
    let numReal := c.b0 + c.b1 * cosw + c.b2 * cos2w
    let numImag := c.b1 * (-sinw) + c.b2 * (-sin2w)
    let denReal := 1 + c.a1 * cosw + c.a2 * cos2w
    let denImag := c.a1 * (-sinw) + c.a2 * (-sin2w)
    let numMagSquared := numReal * numReal + numImag * numImag
    let denMagSquared := denReal * denReal + denImag * denImag
    if denMagSquared = 0 then 0
    else
      let magnitude := Real.sqrt (numMagSquared / denMagSquared)
      if magnitude ≤ 0 then 0
      else 20 * Real.logb 10 magnitude

/-- `clampDb(value)` from `frequencyResponse.js`: clamps to
`[MIN_GAIN_DB, MAX_GAIN_DB]` (the `Number.isFinite` guard is vacuous over `ℝ`). -/
noncomputable def clampDb (value : ℝ) : ℝ :=
  max MIN_GAIN_DB (min MAX_GAIN_DB value)

/-- An EQ band record.  Every numeric field is `Option ℝ` (`none` = missing or
non-finite); `type` is `Option String` (`none` = missing).  The source reads
both `band.S` and `band.s` for the shelf slope. -/
structure Band where
  frequency : Option ℝ
  gain : Option ℝ
  Q : Option ℝ
  S : Option ℝ
  s : Option ℝ
  type : Option String
  sampleRate : Option ℝ

/-- The `options` record of `calculateBandResponse`. -/
structure ResponseOptions where
  sampleRate : Option ℝ

/-- `band.type or-else the default peaking`: a missing type or the (falsy) empty string
resolves to `"peaking"`. -/
def resolveType (t : Option String) : String :=
  match t with
  | none => "peaking"
  | some str => if str = "" then "peaking" else str

/-- `calculateBandResponse(frequency, band, options)` from
`frequencyResponse.js`, lines 97–211.  The evaluation frequency is
`Option ℝ` because the frequency grid can contain `NaN` (see
`generateFrequencies` at `numPoints = 1`); `Number.isFinite(frequency)` is
false exactly on `none` in this model. -/
noncomputable def calculateBandResponse (frequency : Option ℝ) (bandArg : Option Band)
    (options : ResponseOptions) : ℝ :=
  match bandArg with
  | none => 0
  | some band =>
    match band.frequency with
    | none => 0
    | some centerFreq =>
      if centerFreq ≤ 0 then 0
      else
        match frequency with
        | none => 0
        | some freq =>
          if freq ≤ 0 then 0
          else
            let type := resolveType band.type
            let gain := band.gain.getD 0
            let qValue := max (band.Q.getD 1) MIN_Q
            let slope := max ((band.S.orElse fun _ => band.s).getD qValue) MIN_SLOPE
            if |gain| < GAIN_EPSILON ∧
                (type = "peaking" ∨ type = "lowshelf" ∨ type = "highshelf") then 0
            else
              let sampleRate :=
                (options.sampleRate.orElse fun _ => band.sampleRate).getD DEFAULT_SAMPLE_RATE
              if sampleRate ≤ 0 then 0
              else
                let nyquist := sampleRate / 2
                let targetFreq := min (max freq 0) (nyquist * 0.999999)
                let w0 := 2 * Real.pi * centerFreq / sampleRate
                let cosw0 := Real.cos w0
                let sinw0 := Real.sin w0
                let coefficients : Option Coefficients :=
                  if type = "peaking" then
                    let A := (10 : ℝ) ^ (gain / 40)
                    let alpha := sinw0 / (2 * qValue)
                    normalizeCoefficients (1 + alpha * A) (-2 * cosw0) (1 - alpha * A)
                      (1 + alpha / A) (-2 * cosw0) (1 - alpha / A)
                  else if type = "lowshelf" then
                    let A := (10 : ℝ) ^ (gain / 40)
                    let alphaTerm := max 0 ((A + 1 / A) * (1 / slope - 1) + 2)
                    let alpha := (sinw0 / 2) * Real.sqrt alphaTerm
                    let beta := 2 * Real.sqrt A * alpha
                    normalizeCoefficients
                      (A * ((A + 1) - (A - 1) * cosw0 + beta))
                      (2 * A * ((A - 1) - (A + 1) * cosw0))
                      (A * ((A + 1) - (A - 1) * cosw0 - beta))
                      ((A + 1) + (A - 1) * cosw0 + beta)
                      (-2 * ((A - 1) + (A + 1) * cosw0))
                      ((A + 1) + (A - 1) * cosw0 - beta)
                  else if type = "highshelf" then
                    let A := (10 : ℝ) ^ (gain / 40)
                    let alphaTerm := max 0 ((A + 1 / A) * (1 / slope - 1) + 2)
                    let alpha := (sinw0 / 2) * Real.sqrt alphaTerm
                    let beta := 2 * Real.sqrt A * alpha
                    normalizeCoefficients
                      (A * ((A + 1) + (A - 1) * cosw0 + beta))
                      (-2 * A * ((A - 1) + (A + 1) * cosw0))
                      (A * ((A + 1) + (A - 1) * cosw0 - beta))
                      ((A + 1) - (A - 1) * cosw0 + beta)
                      (2 * ((A - 1) - (A + 1) * cosw0))
                      ((A + 1) - (A - 1) * cosw0 - beta)
                  else if type = "lowpass" then
                    let alpha := sinw0 / (2 * qValue)
                    normalizeCoefficients ((1 - cosw0) / 2) (1 - cosw0) ((1 - cosw0) / 2)
                      (1 + alpha) (-2 * cosw0) (1 - alpha)
                  else if type = "highpass" then
                    let alpha := sinw0 / (2 * qValue)
                    normalizeCoefficients ((1 + cosw0) / 2) (-(1 + cosw0)) ((1 + cosw0) / 2)
                      (1 + alpha) (-2 * cosw0) (1 - alpha)
                  else none
                match coefficients with
                | none => 0
                | some c =>
                  let w := 2 * Real.pi * targetFreq / sampleRate
                  biquadMagnitudeDb (some c) w

/-- `generateFrequencies(numPoints)` from `frequencyResponse.js`.
`new Float32Array(numPoints)` throws a `RangeError` for a negative length,
modelled as `Except.error`.  Each grid element is `Option ℝ` because at
`numPoints = 1` the loop body computes `0 / (1 - 1) = 0/0 = NaN` in
JavaScript, which propagates through `logMin + NaN * Δ` and
`Math.pow(10, NaN)` to a stored `NaN`; that whole path is modelled by the
`none` branch (for `numPoints ≠ 1` the divisor `numPoints - 1` is nonzero
and the arithmetic is ordinary). -/
noncomputable def generateFrequencies (numPoints : ℤ) : Except String (List (Option ℝ)) :=
  if numPoints < 0 then Except.error "RangeError: invalid typed array length"
  else
    let minFreq : ℝ := 20
    let maxFreq : ℝ := 20000
    let logMin := Real.logb 10 minFreq
    let logMax := Real.logb 10 maxFreq
    Except.ok ((List.range numPoints.toNat).map fun (i : ℕ) =>
      if (numPoints : ℝ) - 1 = 0 then none
      else some ((10 : ℝ) ^ (logMin + ((i : ℝ) / ((numPoints : ℝ) - 1)) * (logMax - logMin))))

/-- The `options` record of `calculateFrequencyResponse`, with the destructuring defaults of the source already resolved
(`numPoints = 512, minFreq = 20, maxFreq = 20000, sampleRate = 48000`). -/
structure FrequencyResponseOptions where
  numPoints : ℤ
  minFreq : ℝ
  maxFreq : ℝ
  sampleRate : ℝ

/-- Result record of `calculateFrequencyResponse`. -/
structure Result where
  frequencies : List (Option ℝ)
  magnitudeDb : List ℝ

/-- `calculateFrequencyResponse(bands, options)` from `frequencyResponse.js`,
lines 222–260.  The inline frequency-grid loop is the same computation as in
`generateFrequencies` (with configurable `minFreq`/`maxFreq`); the
`Number.isFinite(bandResponse)` guard before accumulation is vacuous over `ℝ`. -/
noncomputable def calculateFrequencyResponse (bands : List (Option Band))
    (options : FrequencyResponseOptions) : Except String Result :=
  if options.numPoints < 0 then Except.error "RangeError: invalid typed array length"
  else
    let numPoints := options.numPoints
    let logMin := Real.logb 10 options.minFreq
    let logMax := Real.logb 10 options.maxFreq
    let frequencies : List (Option ℝ) := (List.range numPoints.toNat).map fun (i : ℕ) =>
      if (numPoints : ℝ) - 1 = 0 then none
      else some ((10 : ℝ) ^ (logMin + ((i : ℝ) / ((numPoints : ℝ) - 1)) * (logMax - logMin)))
    let magnitudeDb : List ℝ := frequencies.map fun freq =>
      clampDb (bands.foldl
        (fun totalGain bandArg =>
          match bandArg with
          | none => totalGain
          | some band => totalGain + calculateBandResponse freq (some band) ⟨some options.sampleRate⟩)
        0)
    Except.ok ⟨frequencies, magnitudeDb⟩

/-- A `PEQProcessor` state record as consumed by `calculateProcessorResponse`:
only its `bands` field matters; `none` models a missing/falsy `bands`. -/
structure PeqState where
  bands : Option (List (Option Band))

/-- `calculateProcessorResponse(peqState, options)` from
`frequencyResponse.js`, lines 268–274: throws when the state or its `bands`
field is missing, otherwise delegates to `calculateFrequencyResponse`. -/
noncomputable def calculateProcessorResponse (peqState : Option PeqState)
    (options : FrequencyResponseOptions) : Except String Result :=
  match peqState with
  | none => Except.error "calculateProcessorResponse requires a valid PEQ state with bands"
  | some st =>
    match st.bands with
    | none => Except.error "calculateProcessorResponse requires a valid PEQ state with bands"
    | some bands => calculateFrequencyResponse bands options

/-- `getResponseAtFrequencies(bands, targetFrequencies, options)` from
`frequencyResponse.js`, lines 282–300. -/
noncomputable def getResponseAtFrequencies (bands : List (Option Band))
    (targetFrequencies : List (Option ℝ)) (options : ResponseOptions) : List ℝ :=
  let sampleRate := options.sampleRate.getD DEFAULT_SAMPLE_RATE
  targetFrequencies.map fun freq =>
    clampDb (bands.foldl
      (fun totalGain bandArg =>
        match bandArg with
        | none => totalGain
        | some band => totalGain + calculateBandResponse freq (some band) ⟨some sampleRate⟩)
      0)

/-- `clampDb` always lands in `[MIN_GAIN_DB, MAX_GAIN_DB]`. -/
lemma clampDb_mem (x : ℝ) : MIN_GAIN_DB ≤ clampDb x ∧ clampDb x ≤ MAX_GAIN_DB := by
  refine ⟨le_max_left _ _, max_le ?_ (min_le_left _ _)⟩
  rw [MIN_GAIN_DB, MAX_GAIN_DB]; norm_num

set_option maxHeartbeats 1000000 in
/-- Key algebraic fact: the normalized peaking biquad, evaluated at its own
center angular frequency `w0`, has magnitude exactly `A^2` and hence a dB
value of `20·log10(A^2)` — for every positive `alpha` (hence independent of
`Q`). -/
lemma biquadMagnitudeDb_peaking (w0 A alpha : ℝ) (hA : 0 < A) (halpha : 0 < alpha)
    (hs : 0 < Real.sin w0) :
    biquadMagnitudeDb
      (some ⟨(1 + alpha * A) * (1 / (1 + alpha / A)),
             (-2 * Real.cos w0) * (1 / (1 + alpha / A)),
             (1 - alpha * A) * (1 / (1 + alpha / A)),
             (-2 * Real.cos w0) * (1 / (1 + alpha / A)),
             (1 - alpha / A) * (1 / (1 + alpha / A))⟩) w0
      = 20 * Real.logb 10 (A ^ 2) := by
  have hpy : Real.sin w0 ^ 2 + Real.cos w0 ^ 2 = 1 := Real.sin_sq_add_cos_sq w0
  set s := Real.sin w0 with hs_def
  set c := Real.cos w0 with hc_def
  have hAne : A ≠ 0 := ne_of_gt hA
  have ha0 : (0 : ℝ) < 1 + alpha / A := by
    have : 0 < alpha / A := div_pos halpha hA
    linarith
  have ha0ne : (1 : ℝ) + alpha / A ≠ 0 := ne_of_gt ha0
  have hsne : s ≠ 0 := ne_of_gt hs
  have halphane : alpha ≠ 0 := ne_of_gt halpha
  simp only [biquadMagnitudeDb]
  rw [Real.cos_two_mul, Real.sin_two_mul]
  rw [← hs_def, ← hc_def]
  have hX : (1 + alpha * A) * (1 / (1 + alpha / A)) +
      (-2 * c) * (1 / (1 + alpha / A)) * c +
      (1 - alpha * A) * (1 / (1 + alpha / A)) * (2 * c ^ 2 - 1)
      = 2 * alpha * A * s ^ 2 / (1 + alpha / A) := by
    field_simp
    linear_combination (-2 * alpha * A ^ 2) * hpy
  have hY : (-2 * c) * (1 / (1 + alpha / A)) * (-s) +
      (1 - alpha * A) * (1 / (1 + alpha / A)) * (-(2 * s * c))
      = 2 * alpha * A * s * c / (1 + alpha / A) := by
    field_simp
    ring
  have hU : 1 + (-2 * c) * (1 / (1 + alpha / A)) * c +
      (1 - alpha / A) * (1 / (1 + alpha / A)) * (2 * c ^ 2 - 1)
      = 2 * (alpha / A) * s ^ 2 / (1 + alpha / A) := by
    field_simp
    linear_combination (-2 * alpha) * hpy
  have hV : (-2 * c) * (1 / (1 + alpha / A)) * (-s) +
      (1 - alpha / A) * (1 / (1 + alpha / A)) * (-(2 * s * c))
      = 2 * (alpha / A) * s * c / (1 + alpha / A) := by
    field_simp
    ring
  rw [hX, hY, hU, hV]
  have hden : 2 * (alpha / A) * s ^ 2 / (1 + alpha / A) *
        (2 * (alpha / A) * s ^ 2 / (1 + alpha / A)) +
      2 * (alpha / A) * s * c / (1 + alpha / A) *
        (2 * (alpha / A) * s * c / (1 + alpha / A))
      = 4 * alpha ^ 2 * s ^ 2 / (A ^ 2 * (1 + alpha / A) ^ 2) := by
    field_simp
    linear_combination (4 * alpha ^ 2 * s ^ 2 * (A + alpha) ^ 2) * hpy
  have hnum : 2 * alpha * A * s ^ 2 / (1 + alpha / A) *
        (2 * alpha * A * s ^ 2 / (1 + alpha / A)) +
      2 * alpha * A * s * c / (1 + alpha / A) *
        (2 * alpha * A * s * c / (1 + alpha / A))
      = 4 * alpha ^ 2 * A ^ 2 * s ^ 2 / (1 + alpha / A) ^ 2 := by
    field_simp
    linear_combination (4 * alpha ^ 2 * A ^ 4 * s ^ 2 * (A + alpha) ^ 2) * hpy
  rw [hden, hnum]
  have hdenpos : (0 : ℝ) < 4 * alpha ^ 2 * s ^ 2 / (A ^ 2 * (1 + alpha / A) ^ 2) := by
    apply div_pos
    · have h1 : (0 : ℝ) < alpha ^ 2 := pow_pos halpha 2
      have h2 : (0 : ℝ) < s ^ 2 := pow_pos hs 2
      nlinarith
    · have h3 : (0 : ℝ) < A ^ 2 := pow_pos hA 2
      have h4 : (0 : ℝ) < (1 + alpha / A) ^ 2 := pow_pos ha0 2
      nlinarith
  rw [if_neg (ne_of_gt hdenpos)]
  have hratio : 4 * alpha ^ 2 * A ^ 2 * s ^ 2 / (1 + alpha / A) ^ 2 /
      (4 * alpha ^ 2 * s ^ 2 / (A ^ 2 * (1 + alpha / A) ^ 2)) = (A ^ 2) ^ 2 := by
    field_simp
    ring
  rw [hratio, Real.sqrt_sq (by positivity : (0 : ℝ) ≤ A ^ 2)]
  rw [if_neg (not_le.mpr (by positivity : (0 : ℝ) < A ^ 2))]

/-- The peaking design evaluated at its own center frequency returns exactly
the configured gain (in the real-number model), independent of `Q`, provided
the band passes the input guards: positive center frequency below the
Nyquist clamp, gain at least `GAIN_EPSILON` in magnitude, positive resolved
sample rate. -/
lemma peaking_center_response (band : Band) (fc g sr : ℝ) (options : ResponseOptions)
    (hbf : band.frequency = some fc)
    (hbt : resolveType band.type = "peaking")
    (hbg : band.gain = some g)
    (hg : GAIN_EPSILON ≤ |g|)
    (hsr : (options.sampleRate.orElse fun _ => band.sampleRate).getD DEFAULT_SAMPLE_RATE = sr)
    (hsr0 : 0 < sr)
    (hfc : 0 < fc)
    (hny : fc < sr / 2 * 0.999999) :
    calculateBandResponse (some fc) (some band) options = g := by
  have hfc' : ¬ (fc ≤ 0) := not_le.mpr hfc
  simp only [calculateBandResponse, hbf, hbg, hbt, hsr, Option.getD_some, if_neg hfc']
  simp only [true_or, and_true]
  rw [if_neg (not_lt.mpr hg), if_neg (not_le.mpr hsr0)]
  rw [max_eq_left (le_of_lt hfc), min_eq_left (le_of_lt hny)]
  simp only [ite_true]
  set w0 := 2 * Real.pi * fc / sr with hw0_def
  set qv := band.Q.getD 1 ⊔ MIN_Q with hqv_def
  set A := (10 : ℝ) ^ (g / 40) with hA_def
  set alpha := Real.sin w0 / (2 * qv) with halpha_def
  have hqv0 : (0 : ℝ) < qv := by
    have h1 : (0 : ℝ) < MIN_Q := by rw [MIN_Q]; norm_num
    exact lt_of_lt_of_le h1 (le_max_right _ _)
  have hw0pos : 0 < w0 := by
    rw [hw0_def]
    have := Real.pi_pos
    positivity
  have hw0pi : w0 < Real.pi := by
    rw [hw0_def, div_lt_iff₀ hsr0]
    nlinarith [Real.pi_pos]
  have hsin : 0 < Real.sin w0 := Real.sin_pos_of_pos_of_lt_pi hw0pos hw0pi
  have hA : 0 < A := Real.rpow_pos_of_pos (by norm_num) _
  have halpha : 0 < alpha := by
    rw [halpha_def]
    exact div_pos hsin (by linarith)
  have ha0pos : (0 : ℝ) < 1 + alpha / A := by
    have := div_pos halpha hA
    linarith
  have ha0eps : ¬ (|1 + alpha / A| < NUMBER_EPSILON) := by
    rw [abs_of_pos ha0pos, NUMBER_EPSILON]
    have h1 : ((1 : ℝ) / 2 ^ 52) ≤ 1 := by norm_num
    have := div_pos halpha hA
    push_neg
    linarith
  simp only [normalizeCoefficients, if_neg ha0eps]
  rw [biquadMagnitudeDb_peaking w0 A alpha hA halpha hsin]
  rw [hA_def]
  have hsq : ((10 : ℝ) ^ (g / 40)) ^ 2 = (10 : ℝ) ^ (g / 20) := by
    rw [← Real.rpow_natCast ((10 : ℝ) ^ (g / 40)) 2, ← Real.rpow_mul (by norm_num : (0 : ℝ) ≤ 10)]
    congr 1
    push_cast
    ring
  rw [hsq, Real.logb_rpow (by norm_num) (by norm_num)]
  ring

/-- C1 (counterexample to the claim as stated): a peaking band with
`gain = 5e-4 ≠ 0`, `Q = 1 > 0`, center frequency `1000` far below the
Nyquist clamp of `sampleRate = 48000`, evaluated at its own center
frequency, returns `0` — which is *not* within `1e-5` dB of the configured
gain, because the code short-circuits every peaking band whose `|gain|` is
below `GAIN_EPSILON = 1e-3`. -/
theorem C1_gain_epsilon_counterexample :
    1e-5 < |calculateBandResponse (some 1000)
        (some ⟨some 1000, some 5e-4, some 1, none, none, some "peaking", none⟩)
        ⟨some 48000⟩ - 5e-4| := by
  have h0 : calculateBandResponse (some 1000)
      (some ⟨some 1000, some 5e-4, some 1, none, none, some "peaking", none⟩)
      ⟨some 48000⟩ = 0 := by
    simp only [calculateBandResponse, resolveType, Option.getD_some]
    rw [if_neg (by norm_num : ¬ (1000 : ℝ) ≤ 0), if_neg (by norm_num : ¬ (1000 : ℝ) ≤ 0)]
    rw [if_pos]
    refine ⟨?_, by simp⟩
    rw [GAIN_EPSILON, abs_of_pos (by norm_num : (0:ℝ) < 5e-4)]
    norm_num
  rw [h0, zero_sub, abs_neg, abs_of_pos (by norm_num : (0:ℝ) < 5e-4)]
  norm_num

/-- C1 (amended): for every peaking band with `Q > 0` and `|gain| ≥ 1e-3`
(the `GAIN_EPSILON` no-op threshold; the original claim only required
`gain ≠ 0`), and every positive sample rate whose Nyquist·0.999999 clamp
lies above the positive center frequency of the band,
`calculateBandResponse(band.frequency, band, {sampleRate})` equals
`band.gain` exactly in the real-number model (hence within 1e-5 dB),
independent of `Q`. -/
theorem C1_peaking_center_gain (band : Band) (fc g q sr : ℝ)
    (hbf : band.frequency = some fc) (hbt : band.type = some "peaking")
    (hbg : band.gain = some g) (_hbq : band.Q = some q) (_hq : 0 < q)
    (hg : GAIN_EPSILON ≤ |g|)
    (hfc : 0 < fc) (hsr0 : 0 < sr) (hny : fc < sr / 2 * 0.999999) :
    calculateBandResponse (some fc) (some band) ⟨some sr⟩ = g := by
  refine peaking_center_response band fc g sr ⟨some sr⟩ hbf ?_ hbg hg rfl hsr0 hfc hny
  rw [hbt, resolveType]
  simp

/-- Witness for C1: a concrete peaking band `{frequency: 1000, gain: 6, Q: 1}`
at `sampleRate = 48000` evaluates to exactly `6` dB at 1000 Hz. -/
theorem C1_peaking_center_gain_witness :
    calculateBandResponse (some 1000)
      (some ⟨some 1000, some 6, some 1, none, none, some "peaking", none⟩)
      ⟨some 48000⟩ = 6 :=
  C1_peaking_center_gain ⟨some 1000, some 6, some 1, none, none, some "peaking", none⟩
    1000 6 1 48000 rfl rfl rfl rfl (by norm_num)
    (by rw [GAIN_EPSILON]; norm_num) (by norm_num) (by norm_num) (by norm_num)

/-- C3: any invalid input — missing band frequency, nonpositive band
frequency, missing (`NaN`) or nonpositive evaluation frequency, or
nonpositive resolved sample rate — makes `calculateBandResponse` return
exactly `0` dB.  (In this model the function is total and real-valued, so
it can neither throw nor produce `NaN`/`Infinity`.) -/
theorem C3_invalid_input_zero (frequency : Option ℝ) (band : Band) (options : ResponseOptions)
    (h : band.frequency = none ∨ (∃ cf, band.frequency = some cf ∧ cf ≤ 0) ∨
        frequency = none ∨ (∃ f, frequency = some f ∧ f ≤ 0) ∨
        (options.sampleRate.orElse fun _ => band.sampleRate).getD DEFAULT_SAMPLE_RATE ≤ 0) :
    calculateBandResponse frequency (some band) options = 0 := by
  rcases h with h | ⟨cf, hcf, hle⟩ | h | ⟨f, hf, hle⟩ | hsr
  · simp [calculateBandResponse, h]
  · simp only [calculateBandResponse, hcf]
    rw [if_pos hle]
  · rcases hbf : band.frequency with _ | cf
    · simp [calculateBandResponse, hbf]
    · simp only [calculateBandResponse, hbf, h]
      split_ifs <;> rfl
  · rcases hbf : band.frequency with _ | cf
    · simp [calculateBandResponse, hbf]
    · simp only [calculateBandResponse, hbf, hf]
      by_cases hcf : cf ≤ 0
      · rw [if_pos hcf]
      · rw [if_neg hcf, if_pos hle]
  · rcases hbf : band.frequency with _ | cf
    · simp [calculateBandResponse, hbf]
    · rcases hfq : frequency with _ | f
      · simp only [calculateBandResponse, hbf]
        split_ifs <;> rfl
      · simp only [calculateBandResponse, hbf]
        by_cases hcf : cf ≤ 0
        · rw [if_pos hcf]
        · rw [if_neg hcf]
          by_cases hf0 : f ≤ 0
          · rw [if_pos hf0]
          · rw [if_neg hf0]
            by_cases hguard : |band.gain.getD 0| < GAIN_EPSILON ∧
                (resolveType band.type = "peaking" ∨ resolveType band.type = "lowshelf" ∨
                  resolveType band.type = "highshelf")
            · rw [if_pos hguard]
            · rw [if_neg hguard, if_pos hsr]

/-- Witness for C3: a band with no frequency field contributes 0 dB. -/
theorem C3_invalid_input_zero_witness :
    calculateBandResponse (some 100) (some ⟨none, none, none, none, none, none, none⟩)
      ⟨none⟩ = 0 :=
  C3_invalid_input_zero (some 100) ⟨none, none, none, none, none, none, none⟩ ⟨none⟩
    (Or.inl rfl)

/-- C4: a peaking or shelving band whose `|gain|` (resolved, missing gain
counting as 0) is below `GAIN_EPSILON` contributes exactly 0 dB at every
evaluation frequency and every sample rate, regardless of `Q`. -/
theorem C4_small_gain_noop (frequency : Option ℝ) (band : Band) (options : ResponseOptions)
    (ht : band.type = some "peaking" ∨ band.type = some "lowshelf" ∨
        band.type = some "highshelf")
    (hg : |band.gain.getD 0| < GAIN_EPSILON) :
    calculateBandResponse frequency (some band) options = 0 := by
  rcases hbf : band.frequency with _ | cf
  · simp [calculateBandResponse, hbf]
  · rcases hfq : frequency with _ | f
    · simp only [calculateBandResponse, hbf]
      split_ifs <;> rfl
    · simp only [calculateBandResponse, hbf]
      by_cases hcf : cf ≤ 0
      · rw [if_pos hcf]
      · rw [if_neg hcf]
        by_cases hf0 : f ≤ 0
        · rw [if_pos hf0]
        · rw [if_neg hf0]
          rw [if_pos]
          refine ⟨hg, ?_⟩
          rcases ht with h | h | h <;> rw [h, resolveType] <;> simp

/-- Witness for C4: a zero-gain peaking band at 1000 Hz contributes 0 dB at
100 Hz. -/
theorem C4_small_gain_noop_witness :
    calculateBandResponse (some 100)
      (some ⟨some 1000, some 0, some 1, none, none, some "peaking", none⟩) ⟨none⟩ = 0 :=
  C4_small_gain_noop (some 100) ⟨some 1000, some 0, some 1, none, none, some "peaking", none⟩
    ⟨none⟩ (Or.inl rfl) (by rw [GAIN_EPSILON]; norm_num)

/-- C2: whenever `calculateFrequencyResponse` returns (i.e. does not throw),
both returned sequences have exactly the requested `numPoints` elements and
every magnitude lies in `[MIN_GAIN_DB, MAX_GAIN_DB] = [-48, 48]`; likewise
every element returned by `getResponseAtFrequencies` lies in `[-48, 48]`. -/
theorem C2_bounds_and_length :
    (∀ (bands : List (Option Band)) (options : FrequencyResponseOptions) (r : Result),
        calculateFrequencyResponse bands options = Except.ok r →
        (r.frequencies.length : ℤ) = options.numPoints ∧
        (r.magnitudeDb.length : ℤ) = options.numPoints ∧
        ∀ x ∈ r.magnitudeDb, MIN_GAIN_DB ≤ x ∧ x ≤ MAX_GAIN_DB) ∧
    (∀ (bands : List (Option Band)) (tfs : List (Option ℝ)) (options : ResponseOptions),
        ∀ x ∈ getResponseAtFrequencies bands tfs options,
          MIN_GAIN_DB ≤ x ∧ x ≤ MAX_GAIN_DB) := by
  constructor
  · intro bands options r h
    by_cases hneg : options.numPoints < 0
    · rw [calculateFrequencyResponse, if_pos hneg] at h
      exact absurd h (by simp)
    · simp only [calculateFrequencyResponse, if_neg hneg, Except.ok.injEq] at h
      subst h
      refine ⟨?_, ?_, ?_⟩
      · simp [Int.toNat_of_nonneg (not_lt.mp hneg)]
      · simp [Int.toNat_of_nonneg (not_lt.mp hneg)]
      · intro x hx
        simp only [List.mem_map] at hx
        obtain ⟨freq, _, rfl⟩ := hx
        exact clampDb_mem _
  · intro bands tfs options x hx
    rw [getResponseAtFrequencies] at hx
    simp only [List.mem_map] at hx
    obtain ⟨freq, _, rfl⟩ := hx
    exact clampDb_mem _

/-- Witness for C2: the empty band list at `numPoints = 0` yields empty
sequences of length 0 whose members (vacuously) lie in the clamp range. -/
theorem C2_bounds_and_length_witness :
    ((([] : List (Option ℝ)).length : ℤ) = 0 ∧ (([] : List ℝ).length : ℤ) = 0 ∧
      ∀ x ∈ ([] : List ℝ), MIN_GAIN_DB ≤ x ∧ x ≤ MAX_GAIN_DB) :=
  C2_bounds_and_length.1 [] ⟨0, 20, 20000, 48000⟩ ⟨[], []⟩
    (by rw [calculateFrequencyResponse, if_neg (by norm_num)]; simp)

/-- C5 (counterexample to the claim as stated): at `numPoints = 0` neither
`generateFrequencies` nor `calculateFrequencyResponse` fails — both return
empty sequences (`new Float32Array(0)` is legal and the loops simply do not
run), so "for every numPoints ≤ 0 they fail" is false at 0. -/
theorem C5_zero_numPoints_counterexample :
    generateFrequencies 0 = Except.ok [] ∧
    calculateFrequencyResponse [] ⟨0, 20, 20000, 48000⟩ = Except.ok ⟨[], []⟩ := by
  constructor
  · rw [generateFrequencies, if_neg (by norm_num)]
    simp
  · rw [calculateFrequencyResponse, if_neg (by norm_num)]
    simp

/-- C5 (amended): for every strictly negative `numPoints`, both
`generateFrequencies` and `calculateFrequencyResponse` fail with the
`RangeError` raised by the `Float32Array` constructor (the invalid-argument
failure); `numPoints = 0` instead returns empty sequences. -/
theorem C5_negative_numPoints_error :
    (∀ n : ℤ, n < 0 →
        generateFrequencies n = Except.error "RangeError: invalid typed array length") ∧
    (∀ (bands : List (Option Band)) (options : FrequencyResponseOptions),
        options.numPoints < 0 →
        calculateFrequencyResponse bands options =
          Except.error "RangeError: invalid typed array length") := by
  constructor
  · intro n hn
    rw [generateFrequencies, if_pos hn]
  · intro bands options hn
    rw [calculateFrequencyResponse, if_pos hn]

/-- Witness for C5: both functions fail at `numPoints = -1`. -/
theorem C5_negative_numPoints_error_witness :
    generateFrequencies (-1) = Except.error "RangeError: invalid typed array length" ∧
    calculateFrequencyResponse [] ⟨-1, 20, 20000, 48000⟩ =
      Except.error "RangeError: invalid typed array length" :=
  ⟨C5_negative_numPoints_error.1 (-1) (by norm_num),
   C5_negative_numPoints_error.2 [] ⟨-1, 20, 20000, 48000⟩ (by norm_num)⟩

/-- C6 (code evaluation at the failing input): `generateFrequencies 1`
computes `0 / (1 - 1) = 0/0 = NaN` in its single loop iteration
(`none` in this model) and returns `[NaN]` — not the claimed `[20]`. -/
theorem C6_numPoints_one_code_eval :
    generateFrequencies 1 = Except.ok [none] ∧
    (Except.ok [none] : Except String (List (Option ℝ))) ≠
      Except.ok [some (20 : ℝ)] := by
  constructor
  · rw [generateFrequencies, if_neg (by norm_num)]
    simp
  · simp

/-- C7: `calculateProcessorResponse` fails with the invalid-argument error
when the state or its `bands` field is missing, and otherwise returns
exactly `calculateFrequencyResponse` of those bands with the same options. -/
theorem C7_processor_wrapper (options : FrequencyResponseOptions) :
    calculateProcessorResponse none options =
      Except.error "calculateProcessorResponse requires a valid PEQ state with bands" ∧
    (∀ st : PeqState, st.bands = none →
        calculateProcessorResponse (some st) options =
          Except.error "calculateProcessorResponse requires a valid PEQ state with bands") ∧
    (∀ (st : PeqState) (bs : List (Option Band)), st.bands = some bs →
        calculateProcessorResponse (some st) options =
          calculateFrequencyResponse bs options) := by
  refine ⟨rfl, ?_, ?_⟩
  · intro st h
    rw [calculateProcessorResponse, h]
  · intro st bs h
    rw [calculateProcessorResponse, h]

/-- Witness for C7: a state with an (empty) bands list delegates to
`calculateFrequencyResponse`. -/
theorem C7_processor_wrapper_witness :
    calculateProcessorResponse (some ⟨some []⟩) ⟨4, 20, 20000, 48000⟩ =
      calculateFrequencyResponse [] ⟨4, 20, 20000, 48000⟩ :=
  (C7_processor_wrapper ⟨4, 20, 20000, 48000⟩).2.2 ⟨some []⟩ [] rfl

/-- C8: for `lowpass`/`highpass` bands the `gain` field is never read by the
response computation (the `GAIN_EPSILON` shortcut only applies to
peaking/shelf types and the lowpass/highpass coefficients use only `Q`), so
two such bands differing only in gain produce identical responses. -/
theorem C8_passband_gain_ignored (band : Band) (g1 g2 : Option ℝ) (frequency : Option ℝ)
    (options : ResponseOptions)
    (ht : band.type = some "lowpass" ∨ band.type = some "highpass") :
    calculateBandResponse frequency (some { band with gain := g1 }) options =
      calculateBandResponse frequency (some { band with gain := g2 }) options := by
  obtain ⟨bf, bg, bq, bS, bs, bt, bsr⟩ := band
  rcases ht with h | h <;> simp only [Band.type] at h <;> subst h <;>
    rcases bf with _ | cf <;> rcases frequency with _ | f <;>
    simp [calculateBandResponse, resolveType]

/-- Witness for C8: a lowpass band at 1000 Hz gives the same response at
100 Hz with gain 5 as with gain -5. -/
theorem C8_passband_gain_ignored_witness :
    calculateBandResponse (some 100)
        (some { (⟨some 1000, some 0, some 1, none, none, some "lowpass", none⟩ : Band) with
          gain := some 5 }) ⟨none⟩ =
      calculateBandResponse (some 100)
        (some { (⟨some 1000, some 0, some 1, none, none, some "lowpass", none⟩ : Band) with
          gain := some (-5) }) ⟨none⟩ :=
  C8_passband_gain_ignored ⟨some 1000, some 0, some 1, none, none, some "lowpass", none⟩
    (some 5) (some (-5)) (some 100) ⟨none⟩ (Or.inl rfl)

/-- C9: a band with a missing (or falsy, i.e. empty-string) `type` is treated
exactly as a `peaking` band — and such a band can produce a nonzero
response — while a present, non-empty, unrecognized type string always
contributes exactly 0 dB. -/
theorem C9_falsy_type_defaults_to_peaking :
    (∀ (band : Band) (frequency : Option ℝ) (options : ResponseOptions),
        band.type = none ∨ band.type = some "" →
        calculateBandResponse frequency (some band) options =
          calculateBandResponse frequency (some { band with type := some "peaking" }) options) ∧
    (∃ (band : Band) (frequency : Option ℝ) (options : ResponseOptions),
        band.type = none ∧ calculateBandResponse frequency (some band) options ≠ 0) ∧
    (∀ (band : Band) (frequency : Option ℝ) (options : ResponseOptions) (t : String),
        band.type = some t → t ≠ "" →
        t ≠ "peaking" → t ≠ "lowshelf" → t ≠ "highshelf" → t ≠ "lowpass" → t ≠ "highpass" →
        calculateBandResponse frequency (some band) options = 0) := by
  refine ⟨?_, ?_, ?_⟩
  · intro band frequency options h
    obtain ⟨bf, bg, bq, bS, bs, bt, bsr⟩ := band
    rcases h with h | h <;> simp only [Band.type] at h <;> subst h <;>
      simp [calculateBandResponse, resolveType]
  · refine ⟨⟨some 1000, some 6, some 1, none, none, none, some 48000⟩, some 1000,
      ⟨some 48000⟩, rfl, ?_⟩
    rw [peaking_center_response ⟨some 1000, some 6, some 1, none, none, none, some 48000⟩
      1000 6 48000 ⟨some 48000⟩ rfl rfl rfl (by rw [GAIN_EPSILON]; norm_num) rfl
      (by norm_num) (by norm_num) (by norm_num)]
    norm_num
  · intro band frequency options t hbt ht0 hp hls hhs hlp hhp
    have hrt : resolveType band.type = t := by rw [hbt, resolveType, if_neg ht0]
    rcases hbf : band.frequency with _ | cf
    · simp [calculateBandResponse, hbf]
    · rcases hfq : frequency with _ | f
      · simp only [calculateBandResponse, hbf]
        split_ifs <;> rfl
      · simp only [calculateBandResponse, hbf, hrt]
        by_cases hcf : cf ≤ 0
        · rw [if_pos hcf]
        · rw [if_neg hcf]
          by_cases hf0 : f ≤ 0
          · rw [if_pos hf0]
          · rw [if_neg hf0]
            rw [if_neg (by simp [hp, hls, hhs])]
            by_cases hsr : (options.sampleRate.orElse fun _ => band.sampleRate).getD
                DEFAULT_SAMPLE_RATE ≤ 0
            · rw [if_pos hsr]
            · rw [if_neg hsr]
              rw [if_neg hp, if_neg hls, if_neg hhs, if_neg hlp, if_neg hhp]

/-- Witness for C9: a band with the unrecognized type `"notch"` contributes
0 dB. -/
theorem C9_falsy_type_defaults_to_peaking_witness :
    calculateBandResponse (some 100)
      (some ⟨some 1000, some 6, some 1, none, none, some "notch", none⟩) ⟨none⟩ = 0 :=
  C9_falsy_type_defaults_to_peaking.2.2
    ⟨some 1000, some 6, some 1, none, none, some "notch", none⟩ (some 100) ⟨none⟩ "notch"
    rfl (by decide) (by decide) (by decide) (by decide) (by decide) (by decide)

/-- Helper: `calculateBandResponse` depends on `band.Q` only through
`qValue = max (band.Q.getD 1) MIN_Q` (which also feeds the shelf-slope
fallback), so two bands differing only in `Q` but with equal `qValue`
respond identically. -/
lemma calculateBandResponse_Q_congr (band : Band) (q1 q2 : Option ℝ)
    (frequency : Option ℝ) (options : ResponseOptions)
    (h : max (q1.getD 1) MIN_Q = max (q2.getD 1) MIN_Q) :
    calculateBandResponse frequency (some { band with Q := q1 }) options =
      calculateBandResponse frequency (some { band with Q := q2 }) options := by
  obtain ⟨bf, bg, bq, bS, bs, bt, bsr⟩ := band
  simp only [calculateBandResponse]
  rw [h]

/-- C10: `calculateBandResponse` never rejects a band for its `Q`: a missing
(or non-finite) `Q` behaves exactly like `Q = 1`, and any `q ≤ 0` behaves
exactly like the minimum `Q = 1e-6` (the `MIN_Q` floor) — the response is
that of a `Q = 1e-6` filter, not 0 dB or an error. -/
theorem C10_Q_resolution (band : Band) (frequency : Option ℝ) (options : ResponseOptions) :
    (calculateBandResponse frequency (some { band with Q := none }) options =
      calculateBandResponse frequency (some { band with Q := some 1 }) options) ∧
    (∀ q : ℝ, q ≤ 0 →
      calculateBandResponse frequency (some { band with Q := some q }) options =
        calculateBandResponse frequency (some { band with Q := some 1e-6 }) options) := by
  constructor
  · exact calculateBandResponse_Q_congr band none (some 1) frequency options rfl
  · intro q hq
    refine calculateBandResponse_Q_congr band (some q) (some 1e-6) frequency options ?_
    simp only [Option.getD_some]
    rw [MIN_Q, max_eq_right, max_self]
    norm_num
    linarith

/-- Witness for C10: with a concrete peaking band, `Q = -1` responds exactly
like `Q = 1e-6`. -/
theorem C10_Q_resolution_witness :
    calculateBandResponse (some 100)
        (some { (⟨some 1000, some 6, none, none, none, some "peaking", none⟩ : Band) with
          Q := some (-1) }) ⟨none⟩ =
      calculateBandResponse (some 100)
        (some { (⟨some 1000, some 6, none, none, none, some "peaking", none⟩ : Band) with
          Q := some 1e-6 }) ⟨none⟩ :=
  (C10_Q_resolution ⟨some 1000, some 6, none, none, none, some "peaking", none⟩
    (some 100) ⟨none⟩).2 (-1) (by norm_num)

end SakuPeq
